import Mathlib

/-!
Shallow embedding of the Taiko L1 block-ledger helpers (`LibUtils.sol`) and
the RISC Zero proof verifier (`RiscZeroVerifier.sol`), together with proofs
of the specification's claims about them.

Machine integers (`uint64`, `uint32`, `bytes32`, `address`, ...) are modelled
as `Nat`; none of the embedded routines can overflow (they only use `%`, `>>`
and comparisons), so no explicit `% 2^w` reduction is needed.  `bytes32`
values and addresses are modelled as `Nat` as well.  Solidity `revert`s are
modelled with `Except`.
-/

namespace TaikoSpec

/-- Errors declared in `LibUtils.sol` (plus the implicit EVM panic is never
reachable in the embedded routines). -/
inductive LibUtilsError where
  | L1_BLOCK_MISMATCH
  | L1_INVALID_BLOCK_ID
  | L1_TRANSITION_NOT_FOUND
  | L1_UNEXPECTED_TRANSITION_ID
  deriving DecidableEq, Repr

/-- The fields of `TaikoData.Config` that `LibUtils` reads
(`blockRingBufferSize` and `maxBlocksToVerify`).  (`TaikoData.sol` itself is
not among the sources; the two fields and their use are taken from
`LibUtils.sol`.) -/
structure Config where
  blockRingBufferSize : Nat
  maxBlocksToVerify : Nat
  deriving DecidableEq, Repr

/-- The fields of `TaikoData.Block` that `LibUtils` reads (block id,
transition counter, verified-transition id) together with the metadata hash
that the spec's `put` stores (§3 BlockRecord). -/
structure Block where
  blockId : Nat
  metaHash : Nat
  nextTransitionId : Nat
  verifiedTransitionId : Nat
  deriving DecidableEq, Repr

/-- The fields of `TaikoData.TransitionState` that `LibUtils` reads: the
parent-hash key, the claimed block hash and the claimed state root. -/
structure TransitionState where
  key : Nat
  blockHash : Nat
  stateRoot : Nat
  deriving DecidableEq, Repr

/-- The parts of `TaikoData.State` that `LibUtils` reads: the ring buffer of
blocks (indexed by slot), the transition table (slot, transition id) and the
reverse transition-id map (block id, parent hash).  Solidity mappings are
total with zero defaults, hence plain functions here. -/
structure State where
  blocks : Nat → Block
  transitions : Nat → Nat → TransitionState
  transitionIds : Nat → Nat → Nat

/-- `LibUtils.getBlock`: `slot = blockId % blockRingBufferSize`; revert with
`L1_INVALID_BLOCK_ID` unless the record in that slot carries the requested
block id. -/
def getBlock (state : State) (config : Config) (blockId : Nat) :
    Except LibUtilsError (Block × Nat) :=
  let slot := blockId % config.blockRingBufferSize
  let blk := state.blocks slot
  if blk.blockId ≠ blockId then .error .L1_INVALID_BLOCK_ID
  else .ok (blk, slot)

/-- `LibUtils.getBlockInfo`: look the block up; the returned block hash and
state root default to zero and are filled in only when
`verifiedTransitionId != 0`. -/
def getBlockInfo (state : State) (config : Config) (blockId : Nat) :
    Except LibUtilsError (Nat × Nat) :=
  match getBlock state config blockId with
  | .error e => .error e
  | .ok (blk, slot) =>
    if blk.verifiedTransitionId ≠ 0 then
      let transition := state.transitions slot blk.verifiedTransitionId
      .ok (transition.blockHash, transition.stateRoot)
    else
      .ok (0, 0)

/-- `LibUtils.getTransition` (the `uint32 _tid` overload): look the block up,
revert with `L1_TRANSITION_NOT_FOUND` when `_tid == 0 || _tid >=
blk.nextTransitionId`, otherwise return the stored transition. -/
def getTransition (state : State) (config : Config) (blockId tid : Nat) :
    Except LibUtilsError TransitionState :=
  match getBlock state config blockId with
  | .error e => .error e
  | .ok (blk, slot) =>
    if tid = 0 ∨ tid ≥ blk.nextTransitionId then .error .L1_TRANSITION_NOT_FOUND
    else .ok (state.transitions slot tid)

/-- `LibUtils.getTransitionId`: fast path through transition slot 1, else the
reverse map; a non-zero candidate `>= nextTransitionId` reverts with
`L1_UNEXPECTED_TRANSITION_ID`. -/
def getTransitionId (state : State) (blk : Block) (slot parentHash : Nat) :
    Except LibUtilsError Nat :=
  if (state.transitions slot 1).key = parentHash then
    if 1 ≥ blk.nextTransitionId then .error .L1_UNEXPECTED_TRANSITION_ID
    else .ok 1
  else
    let tid := state.transitionIds blk.blockId parentHash
    if tid ≠ 0 ∧ tid ≥ blk.nextTransitionId then .error .L1_UNEXPECTED_TRANSITION_ID
    else .ok tid

/-- `LibUtils.shouldVerifyBlocks`: disabled when `maxBlocksToVerify == 0`;
with `segmentSize = maxBlocksToVerify >> 1`, always fire when
`segmentSize <= 1`, otherwise fire on proposal at `blockId % segmentSize == 0`
and on proof at `blockId % segmentSize == segmentSize >> 1`. -/
def shouldVerifyBlocks (config : Config) (blockId : Nat) (isBlockProposed : Bool) : Bool :=
  if config.maxBlocksToVerify = 0 then false
  else
    let segmentSize := config.maxBlocksToVerify >>> 1
    if segmentSize ≤ 1 then true
    else blockId % segmentSize == (if isBlockProposed then 0 else segmentSize >>> 1)

/-- `TaikoData.BlockMetadata` (the upgraded shape): the thirteen fields
shared with the legacy shape, the `proposer`, and the seven
upgrade-only fields (`livenessBond`, `proposedAt`, `proposedIn`,
`blobTxListOffset`, `blobTxListLength`, `blobIndex`, `basefeeSharingPctg`).
Field names and order follow the struct literal in `LibUtils.metaV2ToV1`
and the client ABI components (`TaikoData.sol` itself is not among the
sources). -/
structure BlockMetadata where
  l1Hash : Nat
  difficulty : Nat
  blobHash : Nat
  extraData : Nat
  depositsHash : Nat
  coinbase : Nat
  id : Nat
  gasLimit : Nat
  timestamp : Nat
  l1Height : Nat
  minTier : Nat
  blobUsed : Bool
  parentMetaHash : Nat
  proposer : Nat
  livenessBond : Nat
  proposedAt : Nat
  proposedIn : Nat
  blobTxListOffset : Nat
  blobTxListLength : Nat
  blobIndex : Nat
  basefeeSharingPctg : Nat
  deriving DecidableEq, Repr

/-- `TaikoData.BlockMetadataV1` (the legacy shape): fourteen fields, ending
with `sender`, in the order of `blockMetadataComponents` in the client
bindings. -/
structure BlockMetadataV1 where
  l1Hash : Nat
  difficulty : Nat
  blobHash : Nat
  extraData : Nat
  depositsHash : Nat
  coinbase : Nat
  id : Nat
  gasLimit : Nat
  timestamp : Nat
  l1Height : Nat
  minTier : Nat
  blobUsed : Bool
  parentMetaHash : Nat
  sender : Nat
  deriving DecidableEq, Repr

/-- `LibUtils.metaV2ToV1`: project the upgraded metadata onto the legacy
shape, mapping `sender := proposer`. -/
def metaV2ToV1 (v2 : BlockMetadata) : BlockMetadataV1 :=
  { l1Hash := v2.l1Hash
    difficulty := v2.difficulty
    blobHash := v2.blobHash
    extraData := v2.extraData
    depositsHash := v2.depositsHash
    coinbase := v2.coinbase
    id := v2.id
    gasLimit := v2.gasLimit
    timestamp := v2.timestamp
    l1Height := v2.l1Height
    minTier := v2.minTier
    blobUsed := v2.blobUsed
    parentMetaHash := v2.parentMetaHash
    sender := v2.proposer }

/-- Modelled from the spec: the canonical encoder (§6, an external
collaborator required only to be injective over the field tuple and stable).
`abi.encode` of a struct of statically-sized fields is its head encoding:
one 32-byte word per field in declaration order, booleans as 0/1; a word is
modelled as a `Nat`. -/
def encodeMeta (m : BlockMetadata) : List Nat :=
  [m.l1Hash, m.difficulty, m.blobHash, m.extraData, m.depositsHash,
   m.coinbase, m.id, m.gasLimit, m.timestamp, m.l1Height, m.minTier,
   cond m.blobUsed 1 0, m.parentMetaHash, m.proposer, m.livenessBond,
   m.proposedAt, m.proposedIn, m.blobTxListOffset, m.blobTxListLength,
   m.blobIndex, m.basefeeSharingPctg]

/-- Modelled from the spec: the canonical encoder (§6) applied to the legacy
shape, one word per field in declaration order. -/
def encodeMetaV1 (m : BlockMetadataV1) : List Nat :=
  [m.l1Hash, m.difficulty, m.blobHash, m.extraData, m.depositsHash,
   m.coinbase, m.id, m.gasLimit, m.timestamp, m.l1Height, m.minTier,
   cond m.blobUsed 1 0, m.parentMetaHash, m.sender]

/-- `LibUtils.hashMetadata`, parametrised by the `keccak256` digest over the
encoded words: hash the upgraded shape when `livenessBond != 0`, else hash
the legacy projection. -/
def hashMetadata (keccak : List Nat → Nat) (m : BlockMetadata) : Nat :=
  if m.livenessBond ≠ 0 then keccak (encodeMeta m)
  else keccak (encodeMetaV1 (metaV2ToV1 m))

/-- A sample upgraded-format metadata record with a non-zero liveness bond. -/
def exMeta : BlockMetadata :=
  ⟨101, 102, 103, 104, 105, 106, 107, 108, 109, 110, 111, true, 113, 114,
   5, 116, 117, 118, 119, 120, 121⟩

/-- `LibUtils.getTransition` (the `bytes32 _parentHash` overload): look the
block up, resolve the transition id from the parent hash, revert with
`L1_TRANSITION_NOT_FOUND` when it is 0, otherwise return the stored
transition. -/
def getTransitionByParent (state : State) (config : Config)
    (blockId parentHash : Nat) : Except LibUtilsError TransitionState :=
  match getBlock state config blockId with
  | .error e => .error e
  | .ok (blk, slot) =>
    match getTransitionId state blk slot parentHash with
    | .error e => .error e
    | .ok tid =>
      if tid = 0 then .error .L1_TRANSITION_NOT_FOUND
      else .ok (state.transitions slot tid)

/-- Modelled from the spec: `put(blockId, metadataHash)` of §4.1
(`LibProposing.sol` is not among the sources) — overwrite slot
`blockId mod capacity` unconditionally with a fresh record
(`nextTransitionId = 0`, `verifiedTransitionId = 0`).  The `InvalidSequence`
guard is not modelled: the scenario below only applies `put` with strictly
sequential ids, where the guard passes. -/
def putBlock (state : State) (config : Config) (blockId metadataHash : Nat) :
    State :=
  { state with
    blocks := fun s =>
      if s = blockId % config.blockRingBufferSize then
        { blockId := blockId, metaHash := metadataHash,
          nextTransitionId := 0, verifiedTransitionId := 0 }
      else state.blocks s }

/-- The all-zero ledger state (Solidity storage default). -/
def emptyState : State :=
  { blocks := fun _ => ⟨0, 0, 0, 0⟩,
    transitions := fun _ _ => ⟨0, 0, 0⟩,
    transitionIds := fun _ _ => 0 }

/-- A ledger configuration with ring-buffer capacity 4. -/
def cfg4 : Config := ⟨4, 0⟩

/-- The ledger after blocks 1..5 are proposed sequentially into a ring
buffer of capacity 4 (block 5 lands in slot 1, evicting block 1). -/
def stateAfter5 : State :=
  putBlock (putBlock (putBlock (putBlock (putBlock emptyState cfg4 1 31)
    cfg4 2 32) cfg4 3 33) cfg4 4 34) cfg4 5 35

/-- A ledger configuration with ring-buffer capacity 8. -/
def cfg8 : Config := ⟨8, 16⟩

/-- A sample ledger holding block 2 in slot 2 with three allocated
transition ids (`nextTransitionId = 3`) of which id 1 is verified; transition
slot-1 key is 11, and parent hash 12 resolves to id 2 through the reverse
map. -/
def exState : State :=
  { blocks := fun s => if s = 2 then ⟨2, 7, 3, 1⟩ else ⟨0, 0, 0, 0⟩,
    transitions := fun s t =>
      if s = 2 ∧ t = 1 then ⟨11, 21, 31⟩
      else if s = 2 ∧ t = 2 then ⟨12, 22, 32⟩
      else ⟨0, 0, 0⟩,
    transitionIds := fun b p => if b = 2 ∧ p = 12 then 2 else 0 }

/-- Denotation of an external call to the `view` function `getBlock`: the
result together with the post-state.  The body performs no storage write
(the function is declared `view`), so the post-state is the pre-state
whether the call succeeds or reverts. -/
def getBlockCall (state : State) (config : Config) (blockId : Nat) :
    Except LibUtilsError (Block × Nat) × State :=
  (getBlock state config blockId, state)

/-- Denotation of an external call to the `view` function `getBlockInfo`
(no storage write). -/
def getBlockInfoCall (state : State) (config : Config) (blockId : Nat) :
    Except LibUtilsError (Nat × Nat) × State :=
  (getBlockInfo state config blockId, state)

/-- Denotation of a call to the `view` function `getTransition` (by
transition id; no storage write). -/
def getTransitionCall (state : State) (config : Config) (blockId tid : Nat) :
    Except LibUtilsError TransitionState × State :=
  (getTransition state config blockId tid, state)

/-- Denotation of a call to the `view` function `getTransition` (by parent
hash; no storage write). -/
def getTransitionByParentCall (state : State) (config : Config)
    (blockId parentHash : Nat) : Except LibUtilsError TransitionState × State :=
  (getTransitionByParent state config blockId parentHash, state)

/-- Denotation of a call to the `view` function `getTransitionId` (no
storage write). -/
def getTransitionIdCall (state : State) (blk : Block) (slot parentHash : Nat) :
    Except LibUtilsError Nat × State :=
  (getTransitionId state blk slot parentHash, state)

/-- Denotation of a call to the `pure` function `shouldVerifyBlocks`
(it reads no storage at all). -/
def shouldVerifyBlocksCall (state : State) (config : Config) (blockId : Nat)
    (isBlockProposed : Bool) : Bool × State :=
  (shouldVerifyBlocks config blockId isBlockProposed, state)

/-- `TaikoData.Transition`, per `transitionComponents` in the client
bindings. -/
structure Transition where
  parentHash : Nat
  blockHash : Nat
  stateRoot : Nat
  graffiti : Nat
  deriving DecidableEq, Repr

/-- `TaikoData.TierProof`: the tier and the opaque proof bytes (modelled as
a byte list). -/
structure TierProof where
  tier : Nat
  data : List Nat
  deriving DecidableEq, Repr

/-- The fields of `IVerifier.Context` that `RiscZeroVerifier.verifyProof`
reads (`IVerifier.sol` is not among the sources; the three fields and their
use are taken from `RiscZeroVerifier.sol`). -/
structure Context where
  metaHash : Nat
  prover : Nat
  isContesting : Bool
  deriving DecidableEq, Repr

/-- Reverts `RiscZeroVerifier.verifyProof` can raise: the two declared
errors plus the revert `abi.decode` raises on a malformed payload. -/
inductive VerifierError where
  | ABI_DECODE_REVERT
  | RISC_ZERO_INVALID_IMAGE_ID
  | RISC_ZERO_INVALID_PROOF
  deriving DecidableEq, Repr

/-- Modelled from the spec: the external collaborators of `verifyProof`
(§1, §6 — proof verification internals, serialization and the address
resolver are out of scope): the ABI decoder of the proof bytes into
`(sealBytes, imageId)` (`none` models the decode revert on malformed input),
`LibPublicInput.hashPublicInputs`, the single-word `sha256`, the remote
RISC Zero receipt verifier (the `staticcall` success flag), this contract's
address, and the resolved Taiko chain id. -/
structure VerifierEnv where
  decodeProof : List Nat → Option (List Nat × Nat)
  hashPublicInputs : Transition → Nat → Nat → Nat → Nat → Nat → Nat
  sha256word : Nat → Nat
  receiptVerify : List Nat → Nat → Nat → Bool
  verifierAddress : Nat
  chainId : Nat

/-- The storage of `RiscZeroVerifier` that `verifyProof` reads: the trusted
image-id set. -/
structure VerifierState where
  isImageTrusted : Nat → Bool

/-- `RiscZeroVerifier.verifyProof`: return immediately when contesting;
otherwise decode `(sealBytes, imageId)` from the proof bytes, revert with
`RISC_ZERO_INVALID_IMAGE_ID` for an untrusted image, hash the public inputs,
and revert with `RISC_ZERO_INVALID_PROOF` unless the receipt-verifier call
succeeds.  The function is `view`: a successful call returns the storage
unchanged. -/
def verifyProof (env : VerifierEnv) (vstate : VerifierState) (ctx : Context)
    (tran : Transition) (proof : TierProof) :
    Except VerifierError VerifierState :=
  if ctx.isContesting then .ok vstate
  else
    match env.decodeProof proof.data with
    | none => .error .ABI_DECODE_REVERT
    | some (sealBytes, imageId) =>
      if ¬ vstate.isImageTrusted imageId then
        .error .RISC_ZERO_INVALID_IMAGE_ID
      else
        let hash := env.hashPublicInputs tran env.verifierAddress 0
          ctx.prover ctx.metaHash env.chainId
        let journalDigest := env.sha256word hash
        if env.receiptVerify sealBytes imageId journalDigest then .ok vstate
        else .error .RISC_ZERO_INVALID_PROOF

/-- A verifier environment whose decoder rejects every payload. -/
def nullEnv : VerifierEnv :=
  ⟨fun _ => none, fun _ _ _ _ _ _ => 0, fun _ => 0, fun _ _ _ => false,
   0, 167000⟩

/-- A verifier environment whose decoder accepts every payload as a seal
with image id 9 and whose receipt verifier rejects every receipt. -/
def exEnv : VerifierEnv :=
  ⟨fun d => some (d, 9), fun _ _ _ _ _ _ => 3, fun h => h + 1,
   fun _ _ _ => false, 77, 167000⟩

/-- Verifier storage trusting no image. -/
def exVState : VerifierState := ⟨fun _ => false⟩

/-- Verifier storage trusting exactly image id 9. -/
def trustedVState : VerifierState := ⟨fun i => i == 9⟩

end TaikoSpec

namespace TaikoSpec

/-- C1: `shouldVerifyBlocks` is false when `maxBlocksToVerify = 0`; with
`segment = maxBlocksToVerify / 2` it is true whenever `segment ≤ 1`, and for
`segment > 1` it is true exactly at `blockId % segment = 0` on a proposal and
exactly at `blockId % segment = segment / 2` on a proof. -/
theorem shouldVerifyBlocks_spec (config : Config) (blockId : Nat) (isBlockProposed : Bool) :
    (config.maxBlocksToVerify = 0 →
      shouldVerifyBlocks config blockId isBlockProposed = false) ∧
    (config.maxBlocksToVerify ≠ 0 → config.maxBlocksToVerify / 2 ≤ 1 →
      shouldVerifyBlocks config blockId isBlockProposed = true) ∧
    (config.maxBlocksToVerify ≠ 0 → 1 < config.maxBlocksToVerify / 2 →
      (shouldVerifyBlocks config blockId isBlockProposed = true ↔
        blockId % (config.maxBlocksToVerify / 2) =
          (if isBlockProposed then 0 else config.maxBlocksToVerify / 2 / 2))) := by
  unfold shouldVerifyBlocks
  refine ⟨fun h0 => by simp [h0], fun h0 hle => ?_, fun h0 hgt => ?_⟩
  · simp [h0, Nat.shiftRight_eq_div_pow, hle]
  · simp only [Nat.shiftRight_eq_div_pow, pow_one] at hgt ⊢
    simp [h0, Nat.not_le.mpr hgt, beq_iff_eq]

/-- C1 witness: concrete instances with `maxBlocksToVerify = 16`
(`segment = 8`): proposal fires at `blockId = 24`, proof fires at
`blockId = 12`, and `maxBlocksToVerify = 0` never fires. -/
theorem shouldVerifyBlocks_spec_witness :
    shouldVerifyBlocks ⟨4, 16⟩ 24 true = true ∧
    shouldVerifyBlocks ⟨4, 16⟩ 12 false = true ∧
    shouldVerifyBlocks ⟨4, 0⟩ 24 true = false ∧
    shouldVerifyBlocks ⟨4, 3⟩ 5 false = true := by
  refine ⟨?_, ?_, ?_, ?_⟩
  · exact ((shouldVerifyBlocks_spec ⟨4, 16⟩ 24 true).2.2 (by decide) (by decide)).mpr
      (by decide)
  · exact ((shouldVerifyBlocks_spec ⟨4, 16⟩ 12 false).2.2 (by decide) (by decide)).mpr
      (by decide)
  · exact (shouldVerifyBlocks_spec ⟨4, 0⟩ 24 true).1 rfl
  · exact (shouldVerifyBlocks_spec ⟨4, 3⟩ 5 false).2.1 (by decide) (by decide)

end TaikoSpec

namespace TaikoSpec

/-- C2: `hashMetadata` agrees with the keccak digest of the encoded legacy
projection whenever `livenessBond = 0`; when `livenessBond ≠ 0` it is the
keccak digest of the encoded upgraded record, and (keccak being injective)
differs from the digest of the legacy projection: the two formats are not
collapsed. -/
theorem hashMetadata_spec (keccak : List Nat → Nat)
    (hinj : Function.Injective keccak) (m : BlockMetadata) :
    (m.livenessBond = 0 →
      hashMetadata keccak m = keccak (encodeMetaV1 (metaV2ToV1 m))) ∧
    (m.livenessBond ≠ 0 →
      hashMetadata keccak m = keccak (encodeMeta m) ∧
      hashMetadata keccak m ≠ keccak (encodeMetaV1 (metaV2ToV1 m))) := by
  constructor
  · intro h0
    simp [hashMetadata, h0]
  · intro hne
    refine ⟨by simp [hashMetadata, hne], ?_⟩
    simp only [hashMetadata, hne, if_pos, ne_eq, not_false_iff, ite_true]
    intro heq
    have hlists : encodeMeta m = encodeMetaV1 (metaV2ToV1 m) := hinj heq
    have hlen := congrArg List.length hlists
    simp [encodeMeta, encodeMetaV1] at hlen

/-- C2 witness: at an injective digest (`Encodable.encode` on `List ℕ`) and a
record with liveness bond `5`, the hash is that of the upgraded encoding and
differs from that of the legacy projection. -/
theorem hashMetadata_spec_witness :
    hashMetadata Encodable.encode exMeta = Encodable.encode (encodeMeta exMeta) ∧
    hashMetadata Encodable.encode exMeta ≠
      Encodable.encode (encodeMetaV1 (metaV2ToV1 exMeta)) :=
  (hashMetadata_spec Encodable.encode Encodable.encode_injective exMeta).2
    (by decide)

/-- C3: `metaV2ToV1` copies the thirteen shared fields unchanged, sets the
legacy `sender` to the upgraded `proposer`, and its result does not depend on
the seven upgrade-only fields. -/
theorem metaV2ToV1_spec (m : BlockMetadata) :
    (metaV2ToV1 m).l1Hash = m.l1Hash ∧
    (metaV2ToV1 m).difficulty = m.difficulty ∧
    (metaV2ToV1 m).blobHash = m.blobHash ∧
    (metaV2ToV1 m).extraData = m.extraData ∧
    (metaV2ToV1 m).depositsHash = m.depositsHash ∧
    (metaV2ToV1 m).coinbase = m.coinbase ∧
    (metaV2ToV1 m).id = m.id ∧
    (metaV2ToV1 m).gasLimit = m.gasLimit ∧
    (metaV2ToV1 m).timestamp = m.timestamp ∧
    (metaV2ToV1 m).l1Height = m.l1Height ∧
    (metaV2ToV1 m).minTier = m.minTier ∧
    (metaV2ToV1 m).blobUsed = m.blobUsed ∧
    (metaV2ToV1 m).parentMetaHash = m.parentMetaHash ∧
    (metaV2ToV1 m).sender = m.proposer ∧
    (∀ b pa pi o l bi bs,
      metaV2ToV1 { m with
        livenessBond := b, proposedAt := pa, proposedIn := pi,
        blobTxListOffset := o, blobTxListLength := l, blobIndex := bi,
        basefeeSharingPctg := bs } = metaV2ToV1 m) :=
  ⟨rfl, rfl, rfl, rfl, rfl, rfl, rfl, rfl, rfl, rfl, rfl, rfl, rfl, rfl,
   fun _ _ _ _ _ _ _ => rfl⟩

end TaikoSpec

namespace TaikoSpec

/-- C4: `getBlock` computes `slot = blockId % capacity` and reverts with
`L1_INVALID_BLOCK_ID` exactly when the record in that slot carries a
different block id, otherwise returning that slot's record; and after
blocks 1..5 are proposed sequentially into a ledger of capacity 4,
`getBlock 1` reverts with that error while `getBlock 5` succeeds. -/
theorem getBlock_spec (state : State) (config : Config) (blockId : Nat) :
    (getBlock state config blockId = .error .L1_INVALID_BLOCK_ID ↔
      (state.blocks (blockId % config.blockRingBufferSize)).blockId ≠ blockId) ∧
    ((state.blocks (blockId % config.blockRingBufferSize)).blockId = blockId →
      getBlock state config blockId =
        .ok (state.blocks (blockId % config.blockRingBufferSize),
          blockId % config.blockRingBufferSize)) ∧
    getBlock stateAfter5 cfg4 1 = .error .L1_INVALID_BLOCK_ID ∧
    (getBlock stateAfter5 cfg4 5).isOk = true := by
  refine ⟨?_, fun h => ?_, rfl, rfl⟩
  · by_cases h : (state.blocks (blockId % config.blockRingBufferSize)).blockId = blockId
    · simp [getBlock, h]
    · simp [getBlock, h]
  · simp [getBlock, h]

/-- C4 witness: in the ledger after proposals 1..5 with capacity 4,
`getBlock 5` returns the record stored in slot `5 % 4 = 1`. -/
theorem getBlock_spec_witness :
    getBlock stateAfter5 cfg4 5 =
      .ok (stateAfter5.blocks (5 % cfg4.blockRingBufferSize),
        5 % cfg4.blockRingBufferSize) :=
  (getBlock_spec stateAfter5 cfg4 5).2.1 (by decide)

/-- C5: for a live block (`getBlock` succeeds), `getTransition` by id
reverts with `L1_TRANSITION_NOT_FOUND` exactly when `tid = 0` or
`tid ≥ nextTransitionId`, and otherwise returns the transition stored at
that slot and id. -/
theorem getTransition_spec (state : State) (config : Config)
    (blockId tid : Nat) (blk : Block) (slot : Nat)
    (h : getBlock state config blockId = .ok (blk, slot)) :
    (getTransition state config blockId tid = .error .L1_TRANSITION_NOT_FOUND ↔
      tid = 0 ∨ blk.nextTransitionId ≤ tid) ∧
    (tid ≠ 0 → tid < blk.nextTransitionId →
      getTransition state config blockId tid = .ok (state.transitions slot tid)) := by
  unfold getTransition
  rw [h]
  by_cases hc : tid = 0 ∨ blk.nextTransitionId ≤ tid
  · constructor
    · simp [hc]
    · intro h0 hlt
      exact absurd hc (by omega)
  · constructor
    · simp [hc]
    · intro _ _
      simp [hc]

/-- C5 witness: in the sample ledger, block 2 is live with
`nextTransitionId = 3`, and `getTransition` at id 1 returns the stored
transition. -/
theorem getTransition_spec_witness :
    getTransition exState cfg8 2 1 = .ok (exState.transitions 2 1) :=
  (getTransition_spec exState cfg8 2 1 ⟨2, 7, 3, 1⟩ 2 rfl).2 (by decide)
    (by decide)

/-- C6: `getTransitionId` first checks transition slot 1: on a key match it
returns id 1 unless `1 ≥ nextTransitionId`, in which case it reverts with
`L1_UNEXPECTED_TRANSITION_ID`; otherwise it consults the reverse map,
returning 0 on a miss, the found id when it is `< nextTransitionId`, and
reverting with `L1_UNEXPECTED_TRANSITION_ID` when the found id is non-zero
but `≥ nextTransitionId`. -/
theorem getTransitionId_spec (state : State) (blk : Block)
    (slot parentHash : Nat) :
    ((state.transitions slot 1).key = parentHash →
      (1 < blk.nextTransitionId →
        getTransitionId state blk slot parentHash = .ok 1) ∧
      (blk.nextTransitionId ≤ 1 →
        getTransitionId state blk slot parentHash =
          .error .L1_UNEXPECTED_TRANSITION_ID)) ∧
    ((state.transitions slot 1).key ≠ parentHash →
      (state.transitionIds blk.blockId parentHash = 0 →
        getTransitionId state blk slot parentHash = .ok 0) ∧
      (state.transitionIds blk.blockId parentHash ≠ 0 →
        (state.transitionIds blk.blockId parentHash < blk.nextTransitionId →
          getTransitionId state blk slot parentHash =
            .ok (state.transitionIds blk.blockId parentHash)) ∧
        (blk.nextTransitionId ≤ state.transitionIds blk.blockId parentHash →
          getTransitionId state blk slot parentHash =
            .error .L1_UNEXPECTED_TRANSITION_ID))) := by
  constructor
  · intro hkey
    constructor
    · intro hlt
      simp [getTransitionId, hkey]
      omega
    · intro hle
      simp [getTransitionId, hkey]
      omega
  · intro hkey
    refine ⟨fun h0 => ?_, fun h0 => ⟨fun hlt => ?_, fun hge => ?_⟩⟩
    · simp [getTransitionId, hkey, h0]
    · simp [getTransitionId, hkey]
      omega
    · simp [getTransitionId, hkey]
      omega

/-- C6 witness: in the sample ledger (block 2, `nextTransitionId = 3`,
slot-1 key 11), the fast path resolves parent hash 11 to id 1. -/
theorem getTransitionId_spec_witness :
    getTransitionId exState ⟨2, 7, 3, 1⟩ 2 11 = .ok 1 :=
  ((getTransitionId_spec exState ⟨2, 7, 3, 1⟩ 2 11).1 (by decide)).1 (by decide)

/-- C10: for a live block, `getBlockInfo` does not revert on an unverified
block: with `verifiedTransitionId = 0` it returns the all-zero block hash
and state root, and with `verifiedTransitionId ≠ 0` it returns the block
hash and state root of the transition stored under the verified id. -/
theorem getBlockInfo_spec (state : State) (config : Config) (blockId : Nat)
    (blk : Block) (slot : Nat)
    (h : getBlock state config blockId = .ok (blk, slot)) :
    (blk.verifiedTransitionId = 0 →
      getBlockInfo state config blockId = .ok (0, 0)) ∧
    (blk.verifiedTransitionId ≠ 0 →
      getBlockInfo state config blockId =
        .ok ((state.transitions slot blk.verifiedTransitionId).blockHash,
          (state.transitions slot blk.verifiedTransitionId).stateRoot)) := by
  unfold getBlockInfo
  rw [h]
  constructor
  · intro h0
    simp [h0]
  · intro h0
    simp [h0]

/-- C10 witness: block 2 of the sample ledger has `verifiedTransitionId = 1`
and `getBlockInfo` returns the hash and root of transition 1 of slot 2. -/
theorem getBlockInfo_spec_witness :
    getBlockInfo exState cfg8 2 =
      .ok ((exState.transitions 2 1).blockHash,
        (exState.transitions 2 1).stateRoot) :=
  (getBlockInfo_spec exState cfg8 2 ⟨2, 7, 3, 1⟩ 2 rfl).2 (by decide)

end TaikoSpec

namespace TaikoSpec

/-- C7: for a non-contesting call, `verifyProof` reverts with
`RISC_ZERO_INVALID_IMAGE_ID` exactly when the proof bytes decode to an
untrusted image id (regardless of the receipt verifier), reverts with
`RISC_ZERO_INVALID_PROOF` exactly when the image is trusted but the remote
receipt-verifier call does not succeed, and never returns a storage state
different from the one it was called with. -/
theorem verifyProof_spec (env : VerifierEnv) (vstate : VerifierState)
    (ctx : Context) (tran : Transition) (proof : TierProof)
    (hnc : ctx.isContesting = false) :
    (verifyProof env vstate ctx tran proof = .error .RISC_ZERO_INVALID_IMAGE_ID ↔
      ∃ sealBytes imageId,
        env.decodeProof proof.data = some (sealBytes, imageId) ∧
        vstate.isImageTrusted imageId = false) ∧
    (verifyProof env vstate ctx tran proof = .error .RISC_ZERO_INVALID_PROOF ↔
      ∃ sealBytes imageId,
        env.decodeProof proof.data = some (sealBytes, imageId) ∧
        vstate.isImageTrusted imageId = true ∧
        env.receiptVerify sealBytes imageId
          (env.sha256word (env.hashPublicInputs tran env.verifierAddress 0
            ctx.prover ctx.metaHash env.chainId)) = false) ∧
    (∀ s, verifyProof env vstate ctx tran proof = .ok s → s = vstate) := by
  unfold verifyProof
  rw [hnc]
  rcases hdec : env.decodeProof proof.data with _ | ⟨sealBytes, imageId⟩
  · simp
  · by_cases htr : vstate.isImageTrusted imageId
    · by_cases hrv : env.receiptVerify sealBytes imageId
          (env.sha256word (env.hashPublicInputs tran env.verifierAddress 0
            ctx.prover ctx.metaHash env.chainId)) = true
      · simp [htr, hrv]
      · simp [htr, hrv]
        simp at hrv
        exact ⟨sealBytes, imageId, ⟨rfl, rfl⟩, htr, hrv⟩
    · simp [htr]
      simp at htr
      exact ⟨sealBytes, imageId, ⟨rfl, rfl⟩, htr⟩

/-- C7 witness: with a decoder yielding image id 9, storage trusting image 9
and a receipt verifier rejecting everything, a non-contesting call reverts
with `RISC_ZERO_INVALID_PROOF`. -/
theorem verifyProof_spec_witness :
    verifyProof exEnv trustedVState ⟨5, 6, false⟩ ⟨1, 2, 3, 4⟩ ⟨100, [42]⟩ =
      .error .RISC_ZERO_INVALID_PROOF :=
  ((verifyProof_spec exEnv trustedVState ⟨5, 6, false⟩ ⟨1, 2, 3, 4⟩
      ⟨100, [42]⟩ rfl).2.1).mpr ⟨[42], 9, rfl, rfl, rfl⟩

/-- C9: a contesting call to `verifyProof` succeeds with the storage
unchanged for every environment and proof payload — in particular for a
decoder that rejects every payload, an empty trusted-image set and a
receipt verifier that rejects every receipt — so no cryptographic check at
all is performed on a contest submission. -/
theorem verifyProof_contesting (env : VerifierEnv) (vstate : VerifierState)
    (ctx : Context) (tran : Transition) (proof : TierProof)
    (h : ctx.isContesting = true) :
    verifyProof env vstate ctx tran proof = .ok vstate := by
  simp [verifyProof, h]

/-- C9 witness: a contesting call with the all-rejecting environment, an
empty trusted set and an empty payload still succeeds. -/
theorem verifyProof_contesting_witness :
    verifyProof nullEnv exVState ⟨0, 0, true⟩ ⟨0, 0, 0, 0⟩ ⟨0, []⟩ =
      .ok exVState :=
  verifyProof_contesting nullEnv exVState ⟨0, 0, true⟩ ⟨0, 0, 0, 0⟩ ⟨0, []⟩ rfl

/-- C8: the read operations — `getBlock`, `getBlockInfo`, both
`getTransition` overloads, `getTransitionId` and `shouldVerifyBlocks` —
leave the ledger state unchanged: the post-state of each call equals the
pre-state, whether the call succeeds or reverts. -/
theorem reads_preserve_state (state : State) (config : Config)
    (blockId tid parentHash slot : Nat) (blk : Block)
    (isBlockProposed : Bool) :
    (getBlockCall state config blockId).2 = state ∧
    (getBlockInfoCall state config blockId).2 = state ∧
    (getTransitionCall state config blockId tid).2 = state ∧
    (getTransitionByParentCall state config blockId parentHash).2 = state ∧
    (getTransitionIdCall state blk slot parentHash).2 = state ∧
    (shouldVerifyBlocksCall state config blockId isBlockProposed).2 = state :=
  ⟨rfl, rfl, rfl, rfl, rfl, rfl⟩

end TaikoSpec
